import Mathlib

/-!
Verification development for a resume–job matching pipeline.

The pipeline combines semantic similarity with keyword matching:
text chunking (`src/ingestion/chunking.py`), job-description cleaning
(`src/ingestion/job_cleaner.py`), keyword extraction and matching
(`src/matching/keyword_matcher.py`), hybrid score fusion
(`src/matching/hybrid_scorer.py`), short-input handling
(`src/ingestion/process_resume.py`) and chunk-score aggregation
(`src/app/streamlit_app.py`).

Modelling conventions: Python floats are modelled by exact rationals `ℚ`;
Python strings by Lean `String` (or, for line-oriented processing, by
`List String`, one element per line); Python sets of strings by
`Finset String`.  External collaborators (the sentence-embedding model)
are passed in as function parameters.
-/

namespace ResumeMatcher

/-! ### Hybrid scorer (`src/matching/hybrid_scorer.py`)

`calculate_hybrid_score(semantic_score, keyword_match_results, top_chunks)`
reads `technical_score`, `education_score`, `experience_score` from the
keyword-match result (the Python code reads them from a dict with default
0.5; the embedding receives the structure directly), boosts the semantic
score, fuses with fixed weights, conditionally adds a cross-domain bonus,
and derives a category from inclusive thresholds. -/

/-- Result of `calculate_keyword_match` (the Python dict, as a structure). -/
structure KeywordMatchResult where
  technical_score : ℚ
  required_skill_score : ℚ
  preferred_skill_score : ℚ
  education_score : ℚ
  experience_score : ℚ
  overall_keyword_score : ℚ
  matched_skills : List String
  missing_skills : List String
  missing_required : List String
  missing_preferred : List String
  deriving Repr, DecidableEq

/-- Result of `calculate_hybrid_score` (the Python dict, as a structure). -/
structure ScoreBreakdown where
  hybrid_score : ℚ
  semantic_score : ℚ
  raw_semantic_score : ℚ
  technical_score : ℚ
  education_score : ℚ
  experience_score : ℚ
  match_category : String
  match_icon : String
  recommendation : String
  matched_skills : List String
  missing_skills : List String
  missing_required : List String
  missing_preferred : List String
  deriving Repr, DecidableEq

/-- Embedding of `calculate_hybrid_score` from `src/matching/hybrid_scorer.py`
(lines 9–96).  The `top_chunks` argument of the Python function is unused by
its body and is omitted here. -/
def calculate_hybrid_score (semantic_score : ℚ) (k : KeywordMatchResult) :
    ScoreBreakdown :=
  let technical_score := k.technical_score
  let education_score := k.education_score
  let experience_score := k.experience_score
  let boosted_semantic := min (semantic_score * 1.8) 1
  let base :=
    0.40 * technical_score +
    0.30 * boosted_semantic +
    0.20 * experience_score +
    0.10 * education_score
  let hybrid_score :=
    if boosted_semantic > 0.4 ∧ technical_score < 0.5 then base + 0.05 else base
  let cat : String × String × String :=
    if hybrid_score ≥ 0.70 then
      ("Excellent Match", "🔥", "Strong candidate - Recommend immediate interview")
    else if hybrid_score ≥ 0.55 then
      ("Good Match", "✅", "Solid candidate - Review in detail")
    else if hybrid_score ≥ 0.40 then
      ("Moderate Match", "⚠️", "Some gaps exist - Consider with reservations")
    else
      ("Low Match", "❌", "Significant gaps - May not be suitable")
  { hybrid_score := hybrid_score
    semantic_score := boosted_semantic
    raw_semantic_score := semantic_score
    technical_score := technical_score
    education_score := education_score
    experience_score := experience_score
    match_category := cat.1
    match_icon := cat.2.1
    recommendation := cat.2.2
    matched_skills := k.matched_skills
    missing_skills := k.missing_skills
    missing_required := k.missing_required
    missing_preferred := k.missing_preferred }

/-- A keyword-match result carrying just the three sub-scores used by the
hybrid scorer (the list fields are empty; the scorer passes them through). -/
def mkKeywordResult (technical experience education : ℚ) : KeywordMatchResult :=
  { technical_score := technical
    required_skill_score := 0
    preferred_skill_score := 0
    education_score := education
    experience_score := experience
    overall_keyword_score := 0
    matched_skills := []
    missing_skills := []
    missing_required := []
    missing_preferred := [] }

/-! ### Keyword extraction (`src/matching/keyword_matcher.py`, lines 1–92)

`extract_keywords` scans the lowercased input against three fixed
vocabularies with `re.search(r'\b' + re.escape(entry) + r'\b', text_lower)`.
The regex model below is exact for literal patterns: `\b` holds at a
position exactly when the characters on its two sides differ in
word-character status (a missing character counts as non-word). -/

/-- Python `str.lower()` (ASCII case mapping), modelled at character level. -/
def pyLower (s : String) : String := String.mk (s.toList.map Char.toLower)

/-- Python `str.strip()`: whitespace dropped from both ends, at character
level. -/
def pyStrip (s : String) : String :=
  String.mk (((s.toList.dropWhile Char.isWhitespace).reverse.dropWhile
    Char.isWhitespace).reverse)

/-- Python regex word character (`\w`), ASCII fragment: letters, digits, `_`. -/
def isWordChar (c : Char) : Bool := c.isAlphanum || c == '_'

/-- Whether position `i` of `cs` holds a word character (out of range: no). -/
def wordCharAt (cs : List Char) (i : Nat) : Bool :=
  match cs.get? i with
  | some c => isWordChar c
  | none => false

/-- Python regex `\b` at position `i` (between `cs[i-1]` and `cs[i]`). -/
def wordBoundary (cs : List Char) (i : Nat) : Bool :=
  (if i = 0 then false else wordCharAt cs (i - 1)) != wordCharAt cs i

/-- The literal pattern `pat` occurs at position `i` of `cs` with `\b` on
both ends: `re.search` success of `r'\b' + re.escape(pat) + r'\b'` at `i`. -/
def occursWholeAt (pat cs : List Char) (i : Nat) : Bool :=
  pat.isPrefixOf (cs.drop i) && wordBoundary cs i && wordBoundary cs (i + pat.length)

/-- `re.search(r'\b' + re.escape(pat) + r'\b', text)` succeeds somewhere. -/
def reSearchWord (pat text : String) : Bool :=
  let cs := text.toList
  let p := pat.toList
  (List.range (cs.length + 1)).any (fun i => occursWholeAt p cs i)

/-- `TECH_SKILLS` vocabulary (a Python set literal; modelled as a list). -/
def TECH_SKILLS : List String :=
  ["python", "java", "javascript", "c++", "c#", "r", "sql", "scala", "go", "rust",
   "typescript", "php", "swift", "kotlin", "ruby",
   "machine learning", "deep learning", "nlp", "natural language processing",
   "computer vision", "data science", "data analysis", "statistics", "pandas",
   "numpy", "scikit-learn", "tensorflow", "pytorch", "keras", "lightgbm", "xgboost",
   "aws", "azure", "gcp", "google cloud", "spark", "hadoop", "kafka", "airflow",
   "databricks", "snowflake", "bigquery", "redshift",
   "mysql", "postgresql", "mongodb", "redis", "cassandra", "dynamodb", "oracle",
   "sql server",
   "git", "github", "docker", "kubernetes", "jenkins", "terraform", "ansible",
   "tableau", "power bi", "excel", "jupyter", "flask", "django", "fastapi",
   "react", "node.js", "spring boot",
   "etl", "data pipeline", "data warehouse", "api", "rest api", "microservices",
   "generative ai", "genai", "llm", "large language model", "langchain",
   "hugging face", "openai", "vertex ai", "prompt engineering",
   "agile", "scrum", "ci/cd", "devops", "mlops"]

/-- `EDUCATION_LEVELS` vocabulary. -/
def EDUCATION_LEVELS : List String :=
  ["phd", "doctorate", "master", "masters", "bachelor", "bachelors", "bs", "ba", "ms", "mba"]

/-- `EXPERIENCE_KEYWORDS` vocabulary. -/
def EXPERIENCE_KEYWORDS : List String :=
  ["intern", "internship", "entry level", "junior", "mid level", "senior", "lead", "principal"]

/-- The keyword sets returned by `extract_keywords` (Python sets of strings). -/
structure KeywordSet where
  technical_skills : Finset String
  education : Finset String
  experience_level : Finset String
  deriving DecidableEq

/-- Embedding of `extract_keywords` (`src/matching/keyword_matcher.py`,
lines 58–92): whole-word, case-insensitive vocabulary scan of the text. -/
def extract_keywords (text : String) : KeywordSet :=
  let text_lower := pyLower text
  { technical_skills := (TECH_SKILLS.filter (fun s => reSearchWord s text_lower)).toFinset
    education := (EDUCATION_LEVELS.filter (fun s => reSearchWord s text_lower)).toFinset
    experience_level := (EXPERIENCE_KEYWORDS.filter (fun s => reSearchWord s text_lower)).toFinset }

/-! ### Keyword matching (`src/matching/keyword_matcher.py`, lines 108–196) -/

/-- The `required_skills` / `preferred_skills` texts of the job-sections dict
consumed by `calculate_keyword_match`. -/
structure JobSectionTexts where
  required_skills : String
  preferred_skills : String
  deriving Repr, DecidableEq

/-- Sorted list of a Python set of strings (`sorted(s)`). -/
def sortStrings (s : Finset String) : List String := s.sort (· ≤ ·)

/-- The common part of `calculate_keyword_match` once `required_skills` and
`preferred_skills` are fixed (source lines 126–196): overlap ratios with
neutral defaults, the 0.80/0.20 technical blend, the ×0.85 penalty when more
than 3 required skills are missing, and the education/experience defaults. -/
def keywordMatchWithSkills (resume_skills required_skills preferred_skills : Finset String)
    (resume_keywords job_keywords : KeywordSet) : KeywordMatchResult :=
  let matched_required := resume_skills ∩ required_skills
  let matched_preferred := resume_skills ∩ preferred_skills
  let missing_required := required_skills \ resume_skills
  let missing_preferred := preferred_skills \ resume_skills
  let required_score : ℚ :=
    if required_skills.Nonempty then (matched_required.card : ℚ) / required_skills.card
    else 0.8
  let preferred_score : ℚ :=
    if preferred_skills.Nonempty then (matched_preferred.card : ℚ) / preferred_skills.card
    else 1.0
  let technical_base := 0.80 * required_score + 0.20 * preferred_score
  let all_matched := matched_required ∪ matched_preferred
  let all_missing := missing_required ∪ missing_preferred
  let technical_score :=
    if missing_required.card > 3 then technical_base * 0.85 else technical_base
  let education_score : ℚ :=
    if resume_keywords.education.Nonempty ∧ job_keywords.education.Nonempty ∧
        (resume_keywords.education ∩ job_keywords.education).Nonempty then 1.0 else 0.5
  let experience_score : ℚ :=
    if resume_keywords.experience_level.Nonempty ∧ job_keywords.experience_level.Nonempty ∧
        (resume_keywords.experience_level ∩ job_keywords.experience_level).Nonempty
    then 1.0 else 0.7
  let overall := 0.70 * technical_score + 0.20 * education_score + 0.10 * experience_score
  { technical_score := technical_score
    required_skill_score := required_score
    preferred_skill_score := preferred_score
    education_score := education_score
    experience_score := experience_score
    overall_keyword_score := overall
    matched_skills := sortStrings all_matched
    missing_skills := sortStrings all_missing
    missing_required := sortStrings missing_required
    missing_preferred := sortStrings missing_preferred }

/-- The 70% split index of the no-sections fallback.  The Python source
computes `int(len(lst) * 0.7)` through binary floating point, which equals
`7 * n / 10` for every list length `n` below 90 (first divergence: `n = 90`,
where the float product rounds just below the integer). -/
def splitPoint (n : Nat) : Nat := 7 * n / 10

/-- Embedding of `calculate_keyword_match` (source lines 108–196).  With
section texts it re-runs `extract_keywords` on them; without, it splits the
flat job-skill list 70/30 into required/preferred.  Python enumerates the
set `job_skills` in an unspecified interpreter order; the embedding
enumerates it in sorted order (no theorem below depends on the choice). -/
def calculate_keyword_match (resume_keywords job_keywords : KeywordSet)
    (job_sections : Option JobSectionTexts) : KeywordMatchResult :=
  let resume_skills := resume_keywords.technical_skills
  let job_skills := job_keywords.technical_skills
  match job_sections with
  | some secs =>
      keywordMatchWithSkills resume_skills
        (extract_keywords secs.required_skills).technical_skills
        (extract_keywords secs.preferred_skills).technical_skills
        resume_keywords job_keywords
  | none =>
      let all_job_skills := job_skills.sort (· ≤ ·)
      let split_point := splitPoint all_job_skills.length
      let required_skills := (all_job_skills.take split_point).toFinset
      let preferred_skills := (all_job_skills.drop split_point).toFinset
      keywordMatchWithSkills resume_skills required_skills preferred_skills
        resume_keywords job_keywords

/-! ### Text chunking (`src/ingestion/chunking.py`) -/

/-- Helper for `pySplit`: accumulate the current word (reversed) while
scanning; whitespace runs separate words and produce no empty words. -/
def pySplitAux : List Char → List Char → List String
  | [], acc => if acc.isEmpty then [] else [String.mk acc.reverse]
  | c :: rest, acc =>
      if c.isWhitespace then
        if acc.isEmpty then pySplitAux rest []
        else String.mk acc.reverse :: pySplitAux rest []
      else pySplitAux rest (c :: acc)

/-- Python `str.split()` with no separator: split on whitespace runs,
dropping empty strings. -/
def pySplit (s : String) : List String := pySplitAux s.toList []

/-- The `while start < len(words)` loop of `chunk_text`: emit the window
`words[start : start+chunk_size]` joined by single spaces, advance by
`chunk_size - overlap`, and break right after the first emission when
`chunk_size <= overlap` (the explicit infinite-loop guard in the source). -/
def chunkLoop (words : List String) (chunk_size overlap : Nat) (start : Nat) :
    List String :=
  if h : start < words.length then
    let chunk := (words.drop start).take chunk_size
    let c := String.intercalate " " chunk
    if h2 : chunk_size ≤ overlap then [c]
    else c :: chunkLoop words chunk_size overlap (start + (chunk_size - overlap))
  else []
  termination_by words.length - start
  decreasing_by simp_wf; omega

/-- Embedding of `chunk_text` (`src/ingestion/chunking.py`, lines 3–30). -/
def chunk_text (text : String) (chunk_size overlap : Nat) : List String :=
  chunkLoop (pySplit text) chunk_size overlap 0

/-! ### Job-description cleaning (`src/ingestion/job_cleaner.py`)

The cleaner is line-oriented: the Python code splits on newline, scans, and
re-joins with newline.  The embedding works directly on the line list (one
element per Python line); `joinedLen` is the length the joined string would
have, used for the `< 100` fallback test. -/

/-- `RELEVANT_SECTION_KEYWORDS` from the source. -/
def RELEVANT_SECTION_KEYWORDS : List String :=
  ["responsibilities", "requirements", "qualifications", "required",
   "preferred", "skills", "experience", "education", "what you'll do",
   "what you will do", "what you need", "you will", "must have",
   "should have", "nice to have", "technical skills", "key responsibilities"]

/-- `IRRELEVANT_SECTION_KEYWORDS` from the source. -/
def IRRELEVANT_SECTION_KEYWORDS : List String :=
  ["about us", "company overview", "who we are", "our mission", "our values",
   "benefits", "compensation", "salary", "perks", "what we offer",
   "equal opportunity", "eeo", "diversity", "application process",
   "how to apply", "contact", "location details"]

/-- Python `needle in hay` on strings: substring containment. -/
def substrContains (hay needle : String) : Bool :=
  let h := hay.toList
  let n := needle.toList
  (List.range (h.length + 1)).any (fun i => n.isPrefixOf (h.drop i))

/-- `any(keyword in line for keyword in keys)`. -/
def containsAny (line : String) (keys : List String) : Bool :=
  keys.any (fun k => substrContains line k)

/-- The `current_section` tag of the cleaner loop (`None` / `"required"` /
`"preferred"` / `"general"` in the source). -/
inductive Sect
  | start
  | required
  | preferred
  | general
  deriving DecidableEq, Repr

/-- Accumulated output of the cleaner loop. -/
structure CleanAcc where
  relevant_lines : List String
  required_section : List String
  preferred_section : List String
  deriving DecidableEq, Repr

/-- The per-line scan of `extract_requirements_section` (source lines 50–77):
irrelevant markers set the skip flag and drop the line; relevant markers
clear it and retag the current section; non-empty unskipped lines are kept
and routed to the required/preferred accumulators by the current tag. -/
def cleanerLoop (skip : Bool) (cur : Sect) : List String → CleanAcc
  | [] => ⟨[], [], []⟩
  | line :: rest =>
      let line_lower := pyStrip (pyLower line)
      if containsAny line_lower IRRELEVANT_SECTION_KEYWORDS then
        cleanerLoop true cur rest
      else
        let sk :=
          if containsAny line_lower RELEVANT_SECTION_KEYWORDS then
            (false,
             if containsAny line_lower ["required", "must have", "qualifications"] then
               Sect.required
             else if containsAny line_lower ["preferred", "nice to have", "bonus"] then
               Sect.preferred
             else Sect.general)
          else (skip, cur)
        let acc := cleanerLoop sk.1 sk.2 rest
        if !sk.1 && !(pyStrip line == "") then
          { relevant_lines := line :: acc.relevant_lines
            required_section :=
              if sk.2 = Sect.required then line :: acc.required_section
              else acc.required_section
            preferred_section :=
              if sk.2 = Sect.preferred then line :: acc.preferred_section
              else acc.preferred_section }
        else acc

/-- Length of `'\n'.join(ls)` (without materialising the joined string). -/
def joinedLen (ls : List String) : Nat :=
  (ls.map String.length).sum + (ls.length - 1)

/-- Embedding of `extract_middle_section` (source lines 94–107): keep the
middle 60% of the non-empty lines, or the whole text when fewer than 10
non-empty lines exist. -/
def extract_middle_section (lines : List String) : List String :=
  let ne := lines.filter (fun l => !(pyStrip l == ""))
  if ne.length < 10 then lines
  else (ne.drop (ne.length / 5)).take (ne.length - ne.length / 5 - ne.length / 5)

/-- The sections dict produced by `extract_requirements_section`, at line
level: each field is the line list of the corresponding joined string. -/
structure JobSections where
  cleaned_lines : List String
  required_lines : List String
  preferred_lines : List String
  full_lines : List String
  deriving DecidableEq, Repr

/-- Embedding of `extract_requirements_section` (source lines 25–91). -/
def extract_requirements_section (lines : List String) : JobSections :=
  let acc := cleanerLoop false Sect.start lines
  let cleaned :=
    if joinedLen acc.relevant_lines < 100 then extract_middle_section lines
    else acc.relevant_lines
  { cleaned_lines := cleaned
    required_lines := acc.required_section
    preferred_lines := acc.preferred_section
    full_lines := lines }

/-! ### Short-input handling (`src/ingestion/process_resume.py`)

The two entry points call external collaborators (PDF text extraction and
the sentence-embedding model).  The embedding receives the extracted text
directly and takes the encoder as a function parameter; embedding vectors
are lists of rationals. -/

/-- Result dict of `process_uploaded_resume`. -/
structure ResumeResult where
  success : Bool
  error : Option String
  text : Option String
  chunks : List String
  embeddings : List (List ℚ)
  deriving DecidableEq, Repr

/-- Result dict of `process_job_description`. -/
structure JobResult where
  success : Bool
  error : Option String
  embedding : List ℚ
  deriving DecidableEq, Repr

/-- Embedding of `process_uploaded_resume` (source lines 31–82): `text` is
the already-extracted PDF text, `encode` the embedding model. -/
def process_uploaded_resume (text : String)
    (encode : List String → List (List ℚ)) : ResumeResult :=
  if text = "" ∨ (pyStrip text).length < 50 then
    { success := false, error := some "Could not extract sufficient text from PDF"
      text := none, chunks := [], embeddings := [] }
  else
    let chunks := chunk_text text 200 75
    if chunks.isEmpty then
      { success := false, error := some "Text chunking failed"
        text := none, chunks := [], embeddings := [] }
    else
      { success := true, error := none
        text := some text, chunks := chunks, embeddings := encode chunks }

/-- Embedding of `process_job_description` (source lines 85–117). -/
def process_job_description (job_text : String)
    (encode : String → List ℚ) : JobResult :=
  if job_text = "" ∨ (pyStrip job_text).length < 20 then
    { success := false, error := some "Job description is too short", embedding := [] }
  else
    { success := true, error := none, embedding := encode job_text }

/-! ### Request-level semantic score (`src/app/streamlit_app.py`, line 312)

`semantic_score = sum([c["score"] for c in top_chunks[:3]]) / 3` — the
ranked chunks are represented here by their similarity scores. -/

/-- The request-level semantic score computed from the ranked chunk scores. -/
def semantic_score_of_chunks (top_chunk_scores : List ℚ) : ℚ :=
  (top_chunk_scores.take 3).sum / 3

/-- C1: the hybrid scorer boosts the semantic score to
`min (semantic_score * 1.8) 1`, and (whenever the cross-domain bonus does not
fire, in particular whenever `technical_score ≥ 0.5`) fuses the sub-scores as
`0.40*technical + 0.30*boosted + 0.20*experience + 0.10*education`; on the
spec's example (`semantic=0.5`, `technical=0.6`, `experience=0.7`,
`education=0.5`) the result is exactly `0.70` with category
"Excellent Match" (the `0.70` lower bound is inclusive). -/
theorem hybrid_fusion_formula_and_example :
    (∀ (s : ℚ) (k : KeywordMatchResult),
        (calculate_hybrid_score s k).semantic_score = min (s * 1.8) 1) ∧
    (∀ (s : ℚ) (k : KeywordMatchResult), 0.5 ≤ k.technical_score →
        (calculate_hybrid_score s k).hybrid_score =
          0.40 * k.technical_score + 0.30 * min (s * 1.8) 1 +
          0.20 * k.experience_score + 0.10 * k.education_score) ∧
    (calculate_hybrid_score 0.5 (mkKeywordResult 0.6 0.7 0.5)).hybrid_score
        = 0.70 ∧
    (calculate_hybrid_score 0.5 (mkKeywordResult 0.6 0.7 0.5)).match_category
        = "Excellent Match" := by
  refine ⟨fun s k => rfl, fun s k h => ?_, by norm_num [calculate_hybrid_score, mkKeywordResult], by norm_num [calculate_hybrid_score, mkKeywordResult]⟩
  simp only [calculate_hybrid_score]
  rw [if_neg (fun hcon => absurd hcon.2 (not_lt.mpr h))]

/-- Witness for `hybrid_fusion_formula_and_example`: its hypothesis-carrying
conjunct applied at the spec's example input. -/
theorem hybrid_fusion_formula_and_example_holds :
    (calculate_hybrid_score 0.5 (mkKeywordResult 0.6 0.7 0.5)).hybrid_score =
      0.40 * (0.6 : ℚ) + 0.30 * min ((0.5 : ℚ) * 1.8) 1 + 0.20 * 0.7 + 0.10 * 0.5 :=
  hybrid_fusion_formula_and_example.2.1 0.5 (mkKeywordResult 0.6 0.7 0.5)
    (by norm_num [mkKeywordResult])

/-- C5: the +0.05 cross-domain bonus is added to the fused score exactly once,
if and only if `boosted_semantic > 0.4` and `technical_score < 0.5`; for all
other inputs the hybrid score is exactly the weighted sum.  The spec's example
(`semantic=0.3`, so `boosted=0.54`, and `technical=0.3`) receives the addend
exactly once. -/
theorem cross_domain_bonus_exactly_once :
    (∀ (s : ℚ) (k : KeywordMatchResult),
        (calculate_hybrid_score s k).hybrid_score =
          (0.40 * k.technical_score + 0.30 * min (s * 1.8) 1 +
           0.20 * k.experience_score + 0.10 * k.education_score) +
          (if min (s * 1.8) 1 > 0.4 ∧ k.technical_score < 0.5 then 0.05 else 0)) ∧
    (∀ (e d : ℚ),
        (calculate_hybrid_score 0.3 (mkKeywordResult 0.3 e d)).hybrid_score =
          (0.40 * 0.3 + 0.30 * 0.54 + 0.20 * e + 0.10 * d) + 0.05) := by
  constructor
  · intro s k
    simp only [calculate_hybrid_score]
    split_ifs <;> ring
  · intro e d
    simp only [calculate_hybrid_score, mkKeywordResult]
    rw [if_pos (by norm_num)]
    norm_num

/-- C10: for sub-scores in `[0,1]` the (unclamped) hybrid score never exceeds
`1`: the bonus requires `technical_score < 0.5`, which keeps the pre-bonus
weighted sum strictly below `0.95`, so even with the +0.05 addend the result
is at most `1`. -/
theorem hybrid_score_le_one (s : ℚ) (k : KeywordMatchResult)
    (hs0 : 0 ≤ s) (hs1 : s ≤ 1)
    (ht0 : 0 ≤ k.technical_score) (ht1 : k.technical_score ≤ 1)
    (he0 : 0 ≤ k.experience_score) (he1 : k.experience_score ≤ 1)
    (hd0 : 0 ≤ k.education_score) (hd1 : k.education_score ≤ 1) :
    (k.technical_score < 0.5 →
      0.40 * k.technical_score + 0.30 * min (s * 1.8) 1 +
        0.20 * k.experience_score + 0.10 * k.education_score < 0.95) ∧
    (calculate_hybrid_score s k).hybrid_score ≤ 1 := by
  have hb1 : min (s * 1.8) 1 ≤ 1 := min_le_right _ _
  constructor
  · intro ht
    nlinarith
  · simp only [calculate_hybrid_score]
    split_ifs with hc
    · nlinarith [hc.2]
    · nlinarith

/-- Witness for `hybrid_score_le_one` at a concrete in-range input. -/
theorem hybrid_score_le_one_holds :
    (calculate_hybrid_score 0.5 (mkKeywordResult 0.6 0.7 0.5)).hybrid_score ≤ 1 :=
  (hybrid_score_le_one 0.5 (mkKeywordResult 0.6 0.7 0.5)
    (by norm_num) (by norm_num) (by norm_num [mkKeywordResult])
    (by norm_num [mkKeywordResult]) (by norm_num [mkKeywordResult])
    (by norm_num [mkKeywordResult]) (by norm_num [mkKeywordResult])
    (by norm_num [mkKeywordResult])).2

/-- C3 counterexample: called without section info and with an empty job
skill set, `calculate_keyword_match` returns `technical_score = 0.84`
(`0.80·0.8 + 0.20·1.0`, the empty-required/empty-preferred defaults of the
70/30 split fallback), not the neutral `0.5` the claim states. -/
theorem unweighted_empty_job_not_neutral :
    (calculate_keyword_match
        ⟨{"python"}, ∅, ∅⟩ ⟨∅, ∅, ∅⟩ none).technical_score = 21/25 ∧
    (21/25 : ℚ) ≠ 1/2 := by
  constructor
  · simp only [calculate_keyword_match, keywordMatchWithSkills, Finset.sort_empty,
      List.take_nil, List.drop_nil, List.toFinset_nil]
    norm_num [Finset.not_nonempty_empty]
  · norm_num

/-- C3 amended: without section info the code does not compute
`|resume ∩ job| / |job|`; it splits the flat job-skill list 70/30 into
required/preferred and applies the section-weighted formula, so an empty job
skill set yields `technical_score = 0.84` (not `0.5`).  The education and
experience scores are as claimed: `1.0` when both sides are non-empty with a
non-empty intersection, else `0.5` (education) / `0.7` (experience). -/
theorem unweighted_mode_behavior :
    (∀ (rk jk : KeywordSet), jk.technical_skills = ∅ →
        (calculate_keyword_match rk jk none).technical_score = 21/25) ∧
    (∀ (rk jk : KeywordSet),
        (calculate_keyword_match rk jk none).education_score =
          (if rk.education.Nonempty ∧ jk.education.Nonempty ∧
              (rk.education ∩ jk.education).Nonempty then 1 else 1/2)) ∧
    (∀ (rk jk : KeywordSet),
        (calculate_keyword_match rk jk none).experience_score =
          (if rk.experience_level.Nonempty ∧ jk.experience_level.Nonempty ∧
              (rk.experience_level ∩ jk.experience_level).Nonempty
           then 1 else 7/10)) := by
  refine ⟨fun rk jk h => ?_, fun rk jk => ?_, fun rk jk => ?_⟩
  · simp only [calculate_keyword_match, h, Finset.sort_empty, List.take_nil,
      List.drop_nil, List.toFinset_nil, keywordMatchWithSkills]
    norm_num [Finset.not_nonempty_empty]
  · simp only [calculate_keyword_match, keywordMatchWithSkills]
    norm_num
  · simp only [calculate_keyword_match, keywordMatchWithSkills]
    norm_num

/-- Witness for `unweighted_mode_behavior`: its empty-job-skills conjunct at
a concrete input. -/
theorem unweighted_mode_behavior_holds :
    (calculate_keyword_match ⟨{"python"}, ∅, ∅⟩ ⟨∅, ∅, ∅⟩ none).technical_score
      = 21/25 :=
  unweighted_mode_behavior.1 ⟨{"python"}, ∅, ∅⟩ ⟨∅, ∅, ∅⟩ rfl

/-- C4: in section-weighted mode `calculate_keyword_match` defers to
`keywordMatchWithSkills` on the skills extracted from the section texts, and
for every resume/required/preferred skill set that common core computes
`required_score = |r∩req|/|req|` (0.8 when `req` is empty),
`preferred_score = |r∩pre|/|pre|` (1.0 when `pre` is empty),
`technical_score = 0.80·required + 0.20·preferred`, multiplied by 0.85
exactly when more than 3 required skills are missing; all three scores lie
in `[0,1]`. -/
theorem section_weighted_scores_and_bounds :
    (∀ (rk jk : KeywordSet) (secs : JobSectionTexts),
        calculate_keyword_match rk jk (some secs) =
          keywordMatchWithSkills rk.technical_skills
            (extract_keywords secs.required_skills).technical_skills
            (extract_keywords secs.preferred_skills).technical_skills rk jk) ∧
    (∀ (r req pre : Finset String) (rk jk : KeywordSet),
        (keywordMatchWithSkills r req pre rk jk).required_skill_score =
          (if req.Nonempty then ((r ∩ req).card : ℚ) / req.card else 0.8) ∧
        (keywordMatchWithSkills r req pre rk jk).preferred_skill_score =
          (if pre.Nonempty then ((r ∩ pre).card : ℚ) / pre.card else 1.0) ∧
        (keywordMatchWithSkills r req pre rk jk).technical_score =
          (if (req \ r).card > 3 then
            (0.80 * (keywordMatchWithSkills r req pre rk jk).required_skill_score +
             0.20 * (keywordMatchWithSkills r req pre rk jk).preferred_skill_score) * 0.85
           else
            0.80 * (keywordMatchWithSkills r req pre rk jk).required_skill_score +
            0.20 * (keywordMatchWithSkills r req pre rk jk).preferred_skill_score) ∧
        (0 ≤ (keywordMatchWithSkills r req pre rk jk).required_skill_score ∧
         (keywordMatchWithSkills r req pre rk jk).required_skill_score ≤ 1) ∧
        (0 ≤ (keywordMatchWithSkills r req pre rk jk).preferred_skill_score ∧
         (keywordMatchWithSkills r req pre rk jk).preferred_skill_score ≤ 1) ∧
        (0 ≤ (keywordMatchWithSkills r req pre rk jk).technical_score ∧
         (keywordMatchWithSkills r req pre rk jk).technical_score ≤ 1)) := by
  have score_bounds : ∀ (a b : Finset String),
      (0 : ℚ) ≤ (if b.Nonempty then (((a ∩ b).card : ℚ) / b.card) else 0.8) ∧
      (if b.Nonempty then (((a ∩ b).card : ℚ) / b.card) else 0.8) ≤ 1 := by
    intro a b
    split_ifs with hb
    · have hcard : 0 < (b.card : ℚ) := by
        exact_mod_cast Finset.card_pos.mpr hb
      constructor
      · positivity
      · rw [div_le_one hcard]
        exact_mod_cast Finset.card_le_card (Finset.inter_subset_right)
    · norm_num
  have score_bounds1 : ∀ (a b : Finset String),
      (0 : ℚ) ≤ (if b.Nonempty then (((a ∩ b).card : ℚ) / b.card) else 1.0) ∧
      (if b.Nonempty then (((a ∩ b).card : ℚ) / b.card) else 1.0) ≤ 1 := by
    intro a b
    split_ifs with hb
    · have hcard : 0 < (b.card : ℚ) := by
        exact_mod_cast Finset.card_pos.mpr hb
      constructor
      · positivity
      · rw [div_le_one hcard]
        exact_mod_cast Finset.card_le_card (Finset.inter_subset_right)
    · norm_num
  have technical_clamp : ∀ (rs ps : ℚ) (c : Prop) (_ : Decidable c),
      0 ≤ rs → rs ≤ 1 → 0 ≤ ps → ps ≤ 1 →
      0 ≤ (if c then (0.80 * rs + 0.20 * ps) * 0.85 else 0.80 * rs + 0.20 * ps) ∧
      (if c then (0.80 * rs + 0.20 * ps) * 0.85 else 0.80 * rs + 0.20 * ps) ≤ 1 := by
    intro rs ps c inst h0 h1 h2 h3
    constructor <;> split_ifs <;> nlinarith
  refine ⟨fun rk jk secs => rfl, fun r req pre rk jk => ?_⟩
  obtain ⟨hr0, hr1⟩ := score_bounds r req
  obtain ⟨hp0, hp1⟩ := score_bounds1 r pre
  exact ⟨rfl, rfl, rfl, ⟨hr0, hr1⟩, ⟨hp0, hp1⟩,
    technical_clamp _ _ _ _ hr0 hr1 hp0 hp1⟩

/-- Witness for `section_weighted_scores_and_bounds`: evaluated at concrete
section texts and skill sets (no hypotheses to discharge beyond instantiation). -/
theorem section_weighted_scores_and_bounds_holds :
    (keywordMatchWithSkills {"python"} {"python", "sql"} ∅
        ⟨{"python"}, ∅, ∅⟩ ⟨∅, ∅, ∅⟩).required_skill_score =
      (if ({"python", "sql"} : Finset String).Nonempty then
        ((({"python"} : Finset String) ∩ {"python", "sql"}).card : ℚ) /
          ({"python", "sql"} : Finset String).card
       else 0.8) :=
  (section_weighted_scores_and_bounds.2 {"python"} {"python", "sql"} ∅
    ⟨{"python"}, ∅, ∅⟩ ⟨∅, ∅, ∅⟩).1

/-- C6: when `overlap ≥ chunk_size`, `chunk_text` emits exactly one chunk
for any text containing at least one word and zero chunks for empty or
whitespace-only text (the explicit break guards the non-advancing window);
in particular `chunk_text "a b c" 5 5` is exactly one chunk. -/
theorem chunking_degenerate_guard :
    (∀ (text : String) (chunk_size overlap : Nat), chunk_size ≤ overlap →
        (chunk_text text chunk_size overlap).length =
          if (pySplit text).isEmpty then 0 else 1) ∧
    chunk_text "a b c" 5 5 = ["a b c"] := by
  constructor
  · intro text chunk_size overlap h
    unfold chunk_text
    cases hL : pySplit text with
    | nil => rw [chunkLoop]; simp
    | cons w ws => rw [chunkLoop]; simp [h]
  · unfold chunk_text
    have hsplit : pySplit "a b c" = ["a", "b", "c"] := by decide
    rw [hsplit, chunkLoop]
    norm_num
    decide

/-- Witness for `chunking_degenerate_guard`: its universal conjunct at the
concrete degenerate input. -/
theorem chunking_degenerate_guard_holds :
    (chunk_text "a b c" 5 5).length = if (pySplit "a b c").isEmpty then 0 else 1 :=
  chunking_degenerate_guard.1 "a b c" 5 5 (by decide)

/-- C7: keyword extraction is whole-word and case-insensitive: a vocabulary
entry is reported exactly when the (lowercased) text contains it with word
boundaries on both ends.  Concretely: "script" does not match inside
"javascript developer"; mixed-case "PyThOn" matches the entry "python"; the
multi-word entry "machine learning" matches as a contiguous bounded phrase
and does not match when a boundary is broken on either end. -/
theorem whole_word_keyword_matching :
    (∀ (text s : String),
        s ∈ (extract_keywords text).technical_skills ↔
          s ∈ TECH_SKILLS ∧ reSearchWord s (pyLower text) = true) ∧
    reSearchWord "script" "javascript developer" = false ∧
    "python" ∈ (extract_keywords "I know PyThOn well").technical_skills ∧
    "machine learning" ∈
      (extract_keywords "We use Machine Learning daily").technical_skills ∧
    "machine learning" ∉
      (extract_keywords "machine learnings and supermachine learning").technical_skills := by
  refine ⟨fun text s => ?_, by decide, by decide, by decide, by decide⟩
  simp [extract_keywords, List.mem_toFinset, List.mem_filter]

/-- Every line kept by the cleaner scan is a line of the input. -/
theorem mem_of_mem_cleanerLoop (lines : List String) :
    ∀ (skip : Bool) (cur : Sect) (l : String),
      l ∈ (cleanerLoop skip cur lines).relevant_lines → l ∈ lines := by
  induction lines with
  | nil => intro skip cur l h; simp [cleanerLoop] at h
  | cons line rest ih =>
    intro skip cur l h
    rw [cleanerLoop] at h
    repeat' split at h
    all_goals try dsimp only at h
    all_goals
      first
        | exact List.mem_cons_of_mem _ (ih _ _ _ h)
        | (split at h
           · dsimp only at h
             rcases List.mem_cons.mp h with rfl | hm
             · exact List.mem_cons_self _ _
             · exact List.mem_cons_of_mem _ (ih _ _ _ hm)
           · exact List.mem_cons_of_mem _ (ih _ _ _ h))

/-- Every line of the middle-section fallback is a line of the input. -/
theorem mem_of_mem_extract_middle (lines : List String) (l : String)
    (h : l ∈ extract_middle_section lines) : l ∈ lines := by
  unfold extract_middle_section at h
  dsimp only at h
  split at h
  · exact h
  · exact List.mem_of_mem_filter (List.mem_of_mem_drop (List.mem_of_mem_take h))

/-- C8 counterexample: on the single-line input `["x"]` (one non-empty line,
so the keyword scan yields fewer than 100 characters and the fewer-than-10-
non-empty-lines fallback returns the text unmodified), `cleaned_text` equals
`full_text` and omits no line — it is not a *strict* line-subset. -/
theorem cleaned_lines_not_strict :
    (extract_requirements_section ["x"]).cleaned_lines = ["x"] ∧
    (extract_requirements_section ["x"]).full_lines = ["x"] := by
  constructor <;> decide

/-- C8 amended: `cleaned_text` is a line-subset of `full_text` — every line
of `cleaned_text` is a line of the original job text, in the keyword-scan
path as well as both fallbacks — but not necessarily a strict one: the
fewer-than-10-non-empty-lines fallback returns the text unmodified, and a
scan that keeps every line reproduces the full text. -/
theorem cleaned_lines_subset (lines : List String) (l : String)
    (h : l ∈ (extract_requirements_section lines).cleaned_lines) : l ∈ lines := by
  unfold extract_requirements_section at h
  dsimp only at h
  split at h
  · exact mem_of_mem_extract_middle lines l h
  · exact mem_of_mem_cleanerLoop lines false Sect.start l h

/-- Witness for `cleaned_lines_subset` at a concrete input. -/
theorem cleaned_lines_subset_holds : "x" ∈ (["x"] : List String) :=
  cleaned_lines_subset ["x"] "x" (by decide)

/-- C9: too-short input is surfaced as a structured failure result (the
embedded functions are total, so no exception escapes): extracted resume
text with fewer than 50 characters after stripping yields
`success = false` with an error message, and job text with fewer than 20
characters after stripping likewise. -/
theorem short_input_structured_failure :
    (∀ (text : String) (encode : List String → List (List ℚ)),
        (pyStrip text).length < 50 →
          (process_uploaded_resume text encode).success = false ∧
          (process_uploaded_resume text encode).error =
            some "Could not extract sufficient text from PDF") ∧
    (∀ (job_text : String) (encode : String → List ℚ),
        (pyStrip job_text).length < 20 →
          (process_job_description job_text encode).success = false ∧
          (process_job_description job_text encode).error =
            some "Job description is too short") := by
  constructor
  · intro text encode h
    unfold process_uploaded_resume
    rw [if_pos (Or.inr h)]
    exact ⟨rfl, rfl⟩
  · intro job_text encode h
    unfold process_job_description
    rw [if_pos (Or.inr h)]
    exact ⟨rfl, rfl⟩

/-- Witness for `short_input_structured_failure` at concrete short inputs. -/
theorem short_input_structured_failure_holds :
    (process_uploaded_resume "too short" (fun _ => [])).success = false ∧
    (process_job_description "tiny" (fun _ => [])).success = false :=
  ⟨(short_input_structured_failure.1 "too short" (fun _ => []) (by decide)).1,
   (short_input_structured_failure.2 "tiny" (fun _ => []) (by decide)).1⟩

/-- C2: the request-level semantic score is `sum(top_chunks[:3]) / 3` — the
divisor is the constant 3 even when fewer than 3 ranked chunks exist, so for
a single chunk of score `0.9` the code produces `0.3`, not the mean `0.9`
over the available chunks that the spec requires. -/
theorem semantic_score_fixed_divisor :
    semantic_score_of_chunks [9/10] = 3/10 ∧
    ((9/10 : ℚ)) / 1 ≠ (3/10 : ℚ) := by
  constructor
  · simp [semantic_score_of_chunks]
    norm_num
  · norm_num

end ResumeMatcher
